import Mathlib

/-!
Shallow embedding of the logistics-sync-engine event pipeline.

The definitions below are translated from the TypeScript source:
  * `IngestConsumer.processMessage`  (apps/api/src/modules/ingest/providers/ingest-consumer.provider.ts)
  * `EventInboxRepository.insertEvent` (apps/api/src/data-access/repositories/event-inbox.repository.ts)
  * `ShipmentsRepository.upsertByOrderId`
  * `ShopifyWebhookController.handleOrderWebhook`, `CourierEventController.handleCourierEvent`
  * `OutboundWorker.processMessage`

Timestamps are modelled as `Int` (epoch milliseconds of the JavaScript `Date`;
the entity columns are non-nullable `TIMESTAMP` per the migration, and a JS
`Date` object is always truthy, so the source guard `order.lastEventTs && ...`
reduces to the comparison alone).  Strings model the TEXT columns.  A JSON
field that may be absent, explicitly null, or present is modelled by `JsVal`;
Prisma update semantics (undefined means skip, null means clear) are captured
by `JsVal.applyTo`.  Fields that the source checks only for JS truthiness
(`payload.customerId || ...`, `if (payload.trackingNumber)`) are modelled as
`Option` with `none` standing for any falsy value (absent, null, empty string).
-/

namespace LogisticsSync

/-- A JavaScript/JSON field slot: absent (`undef`), explicit `null`, or a value. -/
inductive JsVal (α : Type) where
  | undef : JsVal α
  | null : JsVal α
  | val : α → JsVal α
  deriving Repr, DecidableEq

/-- Prisma `update` data semantics per field: `undefined` leaves the stored
column unchanged, `null` clears it, a value overwrites it. -/
def JsVal.applyTo {α : Type} (u : JsVal α) (old : Option α) : Option α :=
  match u with
  | .undef => old
  | .null => none
  | .val a => some a

/-- Optional chaining `a?.f`: `undefined` when the receiver is absent or null. -/
def jsChain {α : Type} (a : JsVal α) {β : Type} (f : α → JsVal β) : JsVal β :=
  match a with
  | .undef => .undef
  | .null => .undef
  | .val x => f x

/-- The `address` object carried by an ingest payload (six optional components,
source field names `address1 ... country`). -/
structure Address where
  address1 : JsVal String
  address2 : JsVal String
  city : JsVal String
  province : JsVal String
  zip : JsVal String
  country : JsVal String
  deriving Repr, DecidableEq

/-- The payload fields of an event beyond the four routing keys; these are
spread into the queue message by `insertEvent` and read by the consumer. -/
structure PayloadFields where
  customerId : Option String
  address : JsVal Address
  shippingFeeCents : Option Int
  trackingNumber : Option String
  status : Option String
  deriving Repr, DecidableEq

/-- The body of an `ingest_events` queue message (`IngestEventPayload` in the
source).  `orderId`/`dedupeKey` equal to `""` model a missing or otherwise
falsy field, which the consumer's validation rejects. -/
structure IngestEventPayload where
  orderId : String
  dedupeKey : String
  eventType : String
  eventTs : Int
  fields : PayloadFields
  deriving Repr, DecidableEq

/-- A row of the `orders` table (columns per the Prisma migration; audit
timestamps and the surrogate id are omitted as no modelled code reads them). -/
structure OrderRow where
  orderId : String
  customerId : String
  status : String
  totalAmount : Int
  addressLine1 : Option String
  addressLine2 : Option String
  city : Option String
  state : Option String
  postalCode : Option String
  country : Option String
  shippingFeeCents : Int
  lastEventTs : Int
  deriving Repr, DecidableEq

/-- A row of the `shipments` table (no unique constraint on `order_order_id`). -/
structure ShipmentRow where
  orderOrderId : String
  courierStatus : String
  trackingNumber : String
  deriving Repr, DecidableEq

/-- A row of the `event_inbox` table. -/
structure InboxRow where
  id : String
  dedupeKey : String
  source : String
  orderId : String
  eventType : String
  eventTs : Int
  status : String
  processedAt : Option Int
  deriving Repr, DecidableEq

/-- The six address entries of the consumer's `updates` object.  Each entry is
assigned `payload.address?.<component>`, hence is a `JsVal` (undefined when the
payload omits the component). -/
structure AddressUpdates where
  addressLine1 : JsVal String
  addressLine2 : JsVal String
  city : JsVal String
  state : JsVal String
  postalCode : JsVal String
  country : JsVal String
  deriving Repr, DecidableEq

/-- The consumer's `updates` object.  `lastEventTs` is always assigned; the six
address keys are assigned (possibly to undefined) exactly for the two Shopify
event types; `shippingFeeCents` is assigned only when present in the payload. -/
structure OrderUpdates where
  lastEventTs : Int
  address : Option AddressUpdates
  shippingFeeCents : Option Int
  deriving Repr, DecidableEq

/-- `Object.keys(updates).length` in the source: keys exist once assigned, even
when the assigned value is `undefined`. -/
def keyCount (u : OrderUpdates) : Nat :=
  1 + (if u.address.isSome then 6 else 0) + (if u.shippingFeeCents.isSome then 1 else 0)

/-- A message placed on the `shopify_outbound` queue by the consumer. -/
structure OutboundMsg where
  orderId : String
  changedFields : OrderUpdates
  snapshot : OrderRow
  deriving Repr, DecidableEq

/-- `changedFields` of a broadcast event: either the merchant-side `updates`
object or the courier object `\x7bcourierStatus\x7d`. -/
inductive ChangedFields where
  | merchant : OrderUpdates → ChangedFields
  | courier : Option String → ChangedFields
  deriving Repr, DecidableEq

/-- A `ShipmentUpdateEvent` published on the change broadcaster. -/
structure BroadcastEvent where
  orderId : String
  serverTs : Int
  changedFields : ChangedFields
  summary : String
  deriving Repr, DecidableEq

/-- The persistent state touched by the modelled operations: the three tables
and the `ingest_events` queue (message id paired with body) plus the
`shopify_outbound` queue as seen from the consumer side. -/
structure SystemState where
  orders : List OrderRow
  shipments : List ShipmentRow
  inbox : List InboxRow
  ingestQueue : List (Nat × IngestEventPayload)
  outboundQueue : List OutboundMsg
  nextMsgId : Nat
  deriving Repr, DecidableEq

/-- Result of one `IngestConsumer.processMessage` call: the committed state and
the broadcast published after the commit (if any). -/
structure ProcessResult where
  state : SystemState
  broadcast : Option BroadcastEvent
  deriving Repr, DecidableEq

/-- The minimal Order created by the partial-create guard. -/
def minimalOrderRow (p : IngestEventPayload) : OrderRow :=
  { orderId := p.orderId
    customerId := p.fields.customerId.getD "unknown"
    status := "PENDING_PARTIAL"
    totalAmount := 0
    addressLine1 := none
    addressLine2 := none
    city := none
    state := none
    postalCode := none
    country := none
    shippingFeeCents := 0
    lastEventTs := 0 }

/-- Build the consumer's `updates` object from the payload. -/
def mkAddressUpdates (a : JsVal Address) : AddressUpdates :=
  { addressLine1 := jsChain a Address.address1
    addressLine2 := jsChain a Address.address2
    city := jsChain a Address.city
    state := jsChain a Address.province
    postalCode := jsChain a Address.zip
    country := jsChain a Address.country }

def mkUpdates (p : IngestEventPayload) : OrderUpdates :=
  { lastEventTs := p.eventTs
    address :=
      if p.eventType = "SHOPIFY_CREATED" ∨ p.eventType = "SHOPIFY_UPDATED" then
        some (mkAddressUpdates p.fields.address)
      else none
    shippingFeeCents := p.fields.shippingFeeCents }

/-- `OrdersRepository.update` data application (Prisma semantics per field). -/
def applyUpdates (o : OrderRow) (u : OrderUpdates) : OrderRow :=
  let o1 :=
    match u.address with
    | none => o
    | some a =>
      { o with
        addressLine1 := a.addressLine1.applyTo o.addressLine1
        addressLine2 := a.addressLine2.applyTo o.addressLine2
        city := a.city.applyTo o.city
        state := a.state.applyTo o.state
        postalCode := a.postalCode.applyTo o.postalCode
        country := a.country.applyTo o.country }
  { o1 with
    lastEventTs := u.lastEventTs
    shippingFeeCents :=
      match u.shippingFeeCents with
      | some v => v
      | none => o1.shippingFeeCents }

/-- `OrdersRepository.update` on the table: rewrite the row with the given
(unique) `orderId`.  Rows are keyed by the unique index `orders_order_id_key`. -/
def updateOrderRows (rows : List OrderRow) (k : String) (u : OrderUpdates) : List OrderRow :=
  rows.map fun o => if o.orderId = k then applyUpdates o u else o

/-- `ShipmentsRepository.upsertByOrderId`: `findFirst` by order id, then update
that row, else create a new one. -/
def upsertByOrderId (orderId tn cs : String) : List ShipmentRow → List ShipmentRow
  | [] => [{ orderOrderId := orderId, courierStatus := cs, trackingNumber := tn }]
  | s :: rest =>
    if s.orderOrderId = orderId then
      { orderOrderId := orderId, courierStatus := cs, trackingNumber := tn } :: rest
    else s :: upsertByOrderId orderId tn cs rest

/-- `EventInboxRepository.updateStatus`: update the row with the given primary
key id. -/
def markInboxStatus (rows : List InboxRow) (rid : String) (s : String) (t : Int) :
    List InboxRow :=
  rows.map fun r => if r.id = rid then { r with status := s, processedAt := some t } else r

/-- `pgmq.delete` on the ingest queue. -/
def deleteQ (q : List (Nat × IngestEventPayload)) (msgId : Nat) :
    List (Nat × IngestEventPayload) :=
  q.filter fun m => m.1 != msgId

/-- Source lines 138-157: load the order by `order_id` and run the
partial-create guard.  Returns the `order` variable together with the orders
table after the possible create (the create persists even if a later branch
returns early, because it already ran inside the transaction). -/
def resolveOrder (st : SystemState) (p : IngestEventPayload) :
    Option OrderRow × List OrderRow :=
  match st.orders.find? fun o => o.orderId == p.orderId with
  | some o => (some o, st.orders)
  | none =>
    if p.eventType ≠ "SHOPIFY_CREATED" then
      (some (minimalOrderRow p), st.orders ++ [minimalOrderRow p])
    else (none, st.orders)

/-- Source lines 162-173, the stale branch: mark the inbox row (when found)
`IGNORED_STALE`, touch nothing else, and `return` out of the transaction
callback — which skips the queue delete at the bottom of the callback, so the
claimed message stays on the queue. -/
def staleResult (st : SystemState) (orders1 : List OrderRow)
    (inboxFound : Option InboxRow) (now : Int) : ProcessResult :=
  { state :=
      { st with
        orders := orders1
        inbox :=
          match inboxFound with
          | some r => markInboxStatus st.inbox r.id "IGNORED_STALE" now
          | none => st.inbox }
    broadcast := none }

/-- Source lines 174-266, the apply branch for an existing (or just partial
created) order `o`: build `updates`, run the guarded update/outbound/broadcast
block (its guard `Object.keys(updates).length > 0` always holds since
`lastEventTs` is always assigned), run the courier shipment upsert when a
tracking number is present (the courier broadcast then overwrites the merchant
one), mark the inbox row `PROCESSED`, and delete the queue message. -/
def applyEvent (st : SystemState) (orders1 : List OrderRow) (o : OrderRow)
    (inboxFound : Option InboxRow) (now : Int) (msgId : Nat)
    (p : IngestEventPayload) : ProcessResult :=
  let u := mkUpdates p
  let applied := 0 < keyCount u
  let updatedOrder := applyUpdates o u
  let orders2 := if applied then updateOrderRows orders1 p.orderId u else orders1
  let outbound2 :=
    if applied then
      st.outboundQueue ++
        [{ orderId := p.orderId, changedFields := u, snapshot := updatedOrder }]
    else st.outboundQueue
  let bc1 : Option BroadcastEvent :=
    if applied then
      some
        { orderId := p.orderId
          serverTs := now
          changedFields := ChangedFields.merchant u
          summary :=
            if p.eventType = "SHOPIFY_CREATED" then "Order Created"
            else "Order Updated" }
    else none
  let courierTrack :=
    if p.eventType = "COURIER_STATUS_UPDATE" then p.fields.trackingNumber else none
  let ships2 :=
    match courierTrack with
    | some tn =>
      upsertByOrderId p.orderId tn (p.fields.status.getD "UNKNOWN") st.shipments
    | none => st.shipments
  let bc2 :=
    match courierTrack with
    | some _ =>
      some
        { orderId := p.orderId
          serverTs := now
          changedFields := ChangedFields.courier p.fields.status
          summary := "Shipment Update: " ++ p.fields.status.getD "undefined" }
    | none => bc1
  let inbox2 :=
    match inboxFound with
    | some r => markInboxStatus st.inbox r.id "PROCESSED" now
    | none => st.inbox
  { state :=
      { orders := orders2
        shipments := ships2
        inbox := inbox2
        ingestQueue := deleteQ st.ingestQueue msgId
        outboundQueue := outbound2
        nextMsgId := st.nextMsgId }
    broadcast := bc2 }

/-- `IngestConsumer.processMessage`, one claimed message processed to commit.
`now` models the wall clock used for `processed_at` and `serverTs`.

Faithful control flow notes, traceable to the source:
  * validation failure (`!payload.orderId` or `!payload.dedupeKey`) deletes the
    message outside any transaction and touches nothing else;
  * the partial-create guard runs before the out-of-order check;
  * when the order is still missing (event type `SHOPIFY_CREATED` with no
    existing row) the `if (order)` block is skipped entirely: no row is
    created, the inbox row keeps its status, and only the queue delete runs;
  * the entity guard `order.lastEventTs && ...` reduces to the timestamp
    comparison because a JS `Date` object is always truthy and the column is
    non-nullable. -/
def processMessage (st : SystemState) (now : Int) (msgId : Nat)
    (p : IngestEventPayload) : ProcessResult :=
  if p.orderId = "" ∨ p.dedupeKey = "" then
    { state := { st with ingestQueue := deleteQ st.ingestQueue msgId }
      broadcast := none }
  else
    let inboxFound := st.inbox.find? fun r => r.dedupeKey == p.dedupeKey
    match resolveOrder st p with
    | (none, _) =>
      { state := { st with ingestQueue := deleteQ st.ingestQueue msgId }
        broadcast := none }
    | (some o, orders1) =>
      if p.eventTs < o.lastEventTs then
        staleResult st orders1 inboxFound now
      else
        applyEvent st orders1 o inboxFound now msgId p

/-- The argument of `EventInboxRepository.insertEvent`: the row data (the
generated cuid is `newId`) together with the payload fields that get spread
into the queue message. -/
structure NewInboxEvent where
  newId : String
  dedupeKey : String
  source : String
  orderId : String
  eventType : String
  eventTs : Int
  fields : PayloadFields
  deriving Repr, DecidableEq

/-- The inbox row inserted by `insertEvent` (`status: 'RECEIVED'`). -/
def inboxRowOf (e : NewInboxEvent) : InboxRow :=
  { id := e.newId
    dedupeKey := e.dedupeKey
    source := e.source
    orderId := e.orderId
    eventType := e.eventType
    eventTs := e.eventTs
    status := "RECEIVED"
    processedAt := none }

/-- The `ingest_events` message built by `insertEvent`: the payload spread plus
`orderId`, `dedupeKey`, `eventType`, `eventTs`. -/
def queueMessageOf (e : NewInboxEvent) : IngestEventPayload :=
  { orderId := e.orderId
    dedupeKey := e.dedupeKey
    eventType := e.eventType
    eventTs := e.eventTs
    fields := e.fields }

/-- Return shape of `insertEvent`. -/
structure InsertResult where
  inserted : Bool
  id : Option String
  deriving Repr, DecidableEq

/-- `EventInboxRepository.insertEvent`.  One transaction inserts the inbox row
and sends the queue message; a unique violation on `dedupe_key` (Prisma error
P2002, possible exactly when a row with that key already exists) is caught and
returned as `inserted: false`; any other failure inside the transaction
(modelled by `infraFail`, e.g. the `pgmq.send` call failing) aborts the
transaction — nothing is committed — and is rethrown to the caller. -/
def insertEvent (st : SystemState) (e : NewInboxEvent) (infraFail : Bool) :
    Except Unit (SystemState × InsertResult) :=
  if st.inbox.any fun r => r.dedupeKey == e.dedupeKey then
    .ok (st, { inserted := false, id := none })
  else if infraFail then
    .error ()
  else
    .ok
      ({ st with
          inbox := st.inbox ++ [inboxRowOf e]
          ingestQueue := st.ingestQueue ++ [(st.nextMsgId, queueMessageOf e)]
          nextMsgId := st.nextMsgId + 1 },
        { inserted := true, id := some e.newId })

/-- `HashUtility.computeDedupeKey`: SHA-256 of the pipe-joined parts.  The
digest step is modelled by the canonical pipe-joined input string itself (the
digest is a pure deterministic function of it and no claim depends on its
value). -/
def computeDedupeKey (parts : List String) : String :=
  String.intercalate "|" parts

/-- `HashUtility.computeStableHash` of the payload, modelled likewise by a
canonical deterministic serialization of the payload fields. -/
def stableHash (f : PayloadFields) : String := reprStr f

/-- Webhook body as read by `ShopifyWebhookController` (`payload.id?.toString()`
is modelled by an `Option String`; the timestamps are already converted to
epoch milliseconds). -/
structure ShopifyOrderPayload where
  id : Option String
  updatedAt : Option Int
  createdAt : Option Int
  fields : PayloadFields
  deriving Repr, DecidableEq

/-- HTTP outcome of `POST /webhooks/shopify/orders`.  Every path except the
`BadRequestException` returns a body from the handler, which the framework
serves as a 2xx success; in particular the catch-all block converts any
`insertEvent` error into the 2xx body with `status: 'Error'`. -/
inductive WebhookResponse where
  | badRequest
  | accepted : Option String → WebhookResponse
  | duplicateIgnored
  | errorBody
  deriving Repr, DecidableEq

def WebhookResponse.statusCode : WebhookResponse → Nat
  | .badRequest => 400
  | .accepted _ => 201
  | .duplicateIgnored => 201
  | .errorBody => 201

/-- `ShopifyWebhookController.handleOrderWebhook`.  `now` models the wall clock
fallback for a payload without timestamps; `newId` is the generated row id. -/
def handleOrderWebhook (st : SystemState) (p : ShopifyOrderPayload)
    (webhookId : Option String) (topic : Option String) (now : Int)
    (newId : String) (infraFail : Bool) : SystemState × WebhookResponse :=
  let eventType := topic.getD "unknown"
  let eventTs := ((p.updatedAt.orElse fun _ => p.createdAt).getD now)
  match p.id with
  | none => (st, .badRequest)
  | some orderId =>
    let dedupeKey :=
      match webhookId with
      | some w => "shopify:" ++ w
      | none =>
        computeDedupeKey
          ["shopify", orderId, eventType, toString eventTs, stableHash p.fields]
    match insertEvent st
        { newId := newId
          dedupeKey := dedupeKey
          source := "shopify"
          orderId := orderId
          eventType := eventType
          eventTs := eventTs
          fields := p.fields } infraFail with
    | .ok (st2, r) =>
      if r.inserted then (st2, .accepted r.id) else (st2, .duplicateIgnored)
    | .error _ => (st, .errorBody)

/-- Body of `POST /events/courier/status_update`. -/
structure CourierEventPayload where
  orderId : Option String
  eventType : Option String
  eventTs : Option Int
  fields : PayloadFields
  deriving Repr, DecidableEq

/-- HTTP outcome of the courier endpoint.  This handler has no catch block: an
`insertEvent` error propagates and the framework answers 500. -/
inductive CourierResponse where
  | badRequest
  | accepted : Option String → CourierResponse
  | duplicateIgnored
  | serverError
  deriving Repr, DecidableEq

def CourierResponse.statusCode : CourierResponse → Nat
  | .badRequest => 400
  | .accepted _ => 201
  | .duplicateIgnored => 201
  | .serverError => 500

/-- `CourierEventController.handleCourierEvent`. -/
def handleCourierEvent (st : SystemState) (p : CourierEventPayload)
    (newId : String) (infraFail : Bool) : SystemState × CourierResponse :=
  match p.orderId, p.eventType, p.eventTs with
  | some oid, some et, some ts =>
    let dedupeKey :=
      computeDedupeKey ["courier", oid, et, toString ts, stableHash p.fields]
    match insertEvent st
        { newId := newId
          dedupeKey := dedupeKey
          source := "courier"
          orderId := oid
          eventType := et
          eventTs := ts
          fields := p.fields } infraFail with
    | .ok (st2, r) =>
      if r.inserted then (st2, .accepted r.id) else (st2, .duplicateIgnored)
    | .error _ => (st, .serverError)
  | _, _, _ => (st, .badRequest)

/-- A claimed message of the `shopify_outbound` queue as the worker sees it,
with the visibility delay it was enqueued with. -/
structure OutboundQueueMsg where
  msgId : Nat
  payload : OutboundMsg
  delaySeconds : Int
  deriving Repr, DecidableEq

/-- The upstream HTTP answer to `POST /admin/orders/...`. -/
structure UpstreamResponse where
  status : Nat
  retryAfter : Option Int
  deriving Repr, DecidableEq

/-- `response.ok`: status in the 2xx range. -/
def responseOk (status : Nat) : Prop := 200 ≤ status ∧ status ≤ 299

instance (status : Nat) : Decidable (responseOk status) := by
  unfold responseOk; infer_instance

structure OutboundWorkerState where
  queue : List OutboundQueueMsg
  nextMsgId : Nat
  deriving Repr, DecidableEq

/-- `OutboundWorker.processMessage` after the upstream POST returned `resp`:
  * 429 re-enqueues the same payload with the `Retry-After` delay (default 1)
    and deletes the claimed message, in one transaction;
  * any other non-2xx only logs and returns — the claimed message is NOT
    deleted, so it stays on the queue and becomes visible again;
  * 2xx deletes the message. -/
def outboundProcessMessage (st : OutboundWorkerState) (msgId : Nat)
    (p : OutboundMsg) (resp : UpstreamResponse) : OutboundWorkerState :=
  if resp.status = 429 then
    { queue :=
        (st.queue.filter fun m => m.msgId != msgId) ++
          [{ msgId := st.nextMsgId, payload := p, delaySeconds := resp.retryAfter.getD 1 }]
      nextMsgId := st.nextMsgId + 1 }
  else if ¬ responseOk resp.status then
    st
  else
    { st with queue := st.queue.filter fun m => m.msgId != msgId }

/-- The claimed invariant of C2: every `PROCESSED` courier inbox row references
an existing Order having at least one Shipment. -/
def courierProcessedInv (st : SystemState) : Prop :=
  ∀ r ∈ st.inbox, r.status = "PROCESSED" → r.eventType = "COURIER_STATUS_UPDATE" →
    (∃ o ∈ st.orders, o.orderId = r.orderId) ∧
      ∃ s ∈ st.shipments, s.orderOrderId = r.orderId

instance (st : SystemState) : Decidable (courierProcessedInv st) := by
  unfold courierProcessedInv; infer_instance

/-- The `courierTrack` value inside `applyEvent` (tracking number considered
only for courier events). -/
def courierTrack (p : IngestEventPayload) : Option String :=
  if p.eventType = "COURIER_STATUS_UPDATE" then p.fields.trackingNumber else none

/-! ### Concrete fixtures for the evaluation theorems -/

/-- A payload with no optional content. -/
def noExtraFields : PayloadFields :=
  { customerId := some "c1"
    address := JsVal.undef
    shippingFeeCents := none
    trackingNumber := none
    status := none }

/-- A plain existing order row with no address and `last_event_ts = 0`. -/
def baseOrder : OrderRow :=
  { orderId := "o1"
    customerId := "c1"
    status := "paid"
    totalAmount := 100
    addressLine1 := none
    addressLine2 := none
    city := none
    state := none
    postalCode := none
    country := none
    shippingFeeCents := 0
    lastEventTs := 0 }

/-- A `RECEIVED` inbox row for dedupe key `d1`, order `o1`. -/
def receivedRow (et : String) : InboxRow :=
  { id := "i1"
    dedupeKey := "d1"
    source := "courier"
    orderId := "o1"
    eventType := et
    eventTs := 1000
    status := "RECEIVED"
    processedAt := none }

/-- A queue message for order `o1`, dedupe key `d1`. -/
def msgFor (et : String) (ts : Int) (f : PayloadFields) : IngestEventPayload :=
  { orderId := "o1", dedupeKey := "d1", eventType := et, eventTs := ts, fields := f }

/-- A payload carrying a tracking number and a courier status. -/
def trackedFields : PayloadFields :=
  { noExtraFields with trackingNumber := some "T1", status := some "SHIPPED" }

/-- The empty database/queue state. -/
def emptyState : SystemState :=
  { orders := []
    shipments := []
    inbox := []
    ingestQueue := []
    outboundQueue := []
    nextMsgId := 1 }

/-- A sample outbound queue payload. -/
def sampleOutbound : OutboundMsg :=
  { orderId := "o1"
    changedFields := mkUpdates (msgFor "SHOPIFY_UPDATED" 1000 noExtraFields)
    snapshot := baseOrder }

/-! ### Helper lemmas about the table operations -/

theorem applyUpdates_orderId (o : OrderRow) (u : OrderUpdates) :
    (applyUpdates o u).orderId = o.orderId := by
  unfold applyUpdates
  cases u.address <;> rfl

theorem applyUpdates_lastEventTs (o : OrderRow) (u : OrderUpdates) :
    (applyUpdates o u).lastEventTs = u.lastEventTs := by
  unfold applyUpdates
  cases u.address <;> rfl

theorem keyCount_pos (u : OrderUpdates) : 0 < keyCount u := by
  unfold keyCount
  omega

theorem mkUpdates_lastEventTs (p : IngestEventPayload) :
    (mkUpdates p).lastEventTs = p.eventTs := rfl

theorem find?_updateOrderRows (l : List OrderRow) (k : String) (u : OrderUpdates) :
    (updateOrderRows l k u).find? (fun o => o.orderId == k) =
      (l.find? fun o => o.orderId == k).map fun o => applyUpdates o u := by
  induction l with
  | nil => rfl
  | cons o rest ih =>
    by_cases h : o.orderId = k
    · simp [updateOrderRows, List.find?_cons, h, applyUpdates_orderId]
    · simpa [updateOrderRows, List.find?_cons, h, applyUpdates_orderId] using ih

theorem mem_updateOrderRows_of_mem (l : List OrderRow) (k : String) (u : OrderUpdates)
    (k' : String) (h : ∃ o ∈ l, o.orderId = k') :
    ∃ o ∈ updateOrderRows l k u, o.orderId = k' := by
  obtain ⟨o, ho, rfl⟩ := h
  refine ⟨if o.orderId = k then applyUpdates o u else o,
    List.mem_map_of_mem _ ho, ?_⟩
  by_cases h : o.orderId = k <;> simp [h, applyUpdates_orderId]

theorem upsert_cons_pos (orderId tn cs : String) (s : ShipmentRow)
    (rest : List ShipmentRow) (h : s.orderOrderId = orderId) :
    upsertByOrderId orderId tn cs (s :: rest) =
      { orderOrderId := orderId, courierStatus := cs, trackingNumber := tn } :: rest := by
  simp [upsertByOrderId, h]

theorem upsert_cons_neg (orderId tn cs : String) (s : ShipmentRow)
    (rest : List ShipmentRow) (h : ¬ s.orderOrderId = orderId) :
    upsertByOrderId orderId tn cs (s :: rest) =
      s :: upsertByOrderId orderId tn cs rest := by
  simp [upsertByOrderId, h]

theorem upsert_mem_self (orderId tn cs : String) (l : List ShipmentRow) :
    ∃ s ∈ upsertByOrderId orderId tn cs l, s.orderOrderId = orderId := by
  induction l with
  | nil => exact ⟨_, List.mem_singleton_self _, rfl⟩
  | cons s rest ih =>
    by_cases h : s.orderOrderId = orderId
    · rw [upsert_cons_pos orderId tn cs s rest h]
      exact ⟨_, List.mem_cons_self _ _, rfl⟩
    · rw [upsert_cons_neg orderId tn cs s rest h]
      obtain ⟨t, ht, hts⟩ := ih
      exact ⟨t, List.mem_cons_of_mem _ ht, hts⟩

theorem upsert_mem_of_mem (orderId tn cs k : String) (l : List ShipmentRow)
    (h : ∃ s ∈ l, s.orderOrderId = k) :
    ∃ s ∈ upsertByOrderId orderId tn cs l, s.orderOrderId = k := by
  induction l with
  | nil => simp at h
  | cons s rest ih =>
    obtain ⟨t, ht, hts⟩ := h
    by_cases hh : s.orderOrderId = orderId
    · rw [upsert_cons_pos orderId tn cs s rest hh]
      rcases List.mem_cons.mp ht with rfl | htr
      · exact ⟨_, List.mem_cons_self _ _, by rw [← hts, ← hh]⟩
      · exact ⟨t, List.mem_cons_of_mem _ htr, hts⟩
    · rw [upsert_cons_neg orderId tn cs s rest hh]
      rcases List.mem_cons.mp ht with rfl | htr
      · exact ⟨t, List.mem_cons_self _ _, hts⟩
      · obtain ⟨t2, ht2, ht2s⟩ := ih ⟨t, htr, hts⟩
        exact ⟨t2, List.mem_cons_of_mem _ ht2, ht2s⟩

theorem mem_markInboxStatus (l : List InboxRow) (rid s : String) (t : Int)
    (r' : InboxRow) (h : r' ∈ markInboxStatus l rid s t) :
    ∃ r ∈ l, (r.id ≠ rid ∧ r' = r) ∨
      (r.id = rid ∧ r' = { r with status := s, processedAt := some t }) := by
  unfold markInboxStatus at h
  obtain ⟨r, hr, hre⟩ := List.mem_map.mp h
  by_cases hid : r.id = rid
  · exact ⟨r, hr, Or.inr ⟨hid, by rw [← hre]; simp [hid]⟩⟩
  · exact ⟨r, hr, Or.inl ⟨hid, by rw [← hre]; simp [hid]⟩⟩

theorem markInboxStatus_mem_updated (l : List InboxRow) (r : InboxRow) (hr : r ∈ l)
    (s : String) (t : Int) :
    { r with status := s, processedAt := some t } ∈ markInboxStatus l r.id s t := by
  unfold markInboxStatus
  have hmem := List.mem_map_of_mem
    (fun x => if x.id = r.id then { x with status := s, processedAt := some t } else x) hr
  simpa using hmem

/-! ### Control-flow lemmas for `processMessage` -/

theorem resolveOrder_found (st : SystemState) (p : IngestEventPayload) (o : OrderRow)
    (h : st.orders.find? (fun x => x.orderId == p.orderId) = some o) :
    resolveOrder st p = (some o, st.orders) := by
  unfold resolveOrder
  rw [h]

theorem resolveOrder_missing_create (st : SystemState) (p : IngestEventPayload)
    (h : st.orders.find? (fun x => x.orderId == p.orderId) = none)
    (ht : p.eventType = "SHOPIFY_CREATED") :
    resolveOrder st p = (none, st.orders) := by
  unfold resolveOrder
  rw [h]
  simp [ht]

theorem resolveOrder_missing_other (st : SystemState) (p : IngestEventPayload)
    (h : st.orders.find? (fun x => x.orderId == p.orderId) = none)
    (ht : p.eventType ≠ "SHOPIFY_CREATED") :
    resolveOrder st p = (some (minimalOrderRow p), st.orders ++ [minimalOrderRow p]) := by
  unfold resolveOrder
  rw [h]
  simp [ht]

theorem processMessage_eq_drop (st : SystemState) (now : Int) (msgId : Nat)
    (p : IngestEventPayload)
    (hval : ¬ (p.orderId = "" ∨ p.dedupeKey = ""))
    (hres : (resolveOrder st p).1 = none) :
    processMessage st now msgId p =
      { state := { st with ingestQueue := deleteQ st.ingestQueue msgId }
        broadcast := none } := by
  unfold processMessage
  rw [if_neg hval]
  cases h2 : resolveOrder st p with
  | mk oo l =>
    rw [h2] at hres
    cases oo with
    | none => rfl
    | some o => simp at hres

theorem processMessage_eq_stale (st : SystemState) (now : Int) (msgId : Nat)
    (p : IngestEventPayload) (o : OrderRow) (orders1 : List OrderRow)
    (hval : ¬ (p.orderId = "" ∨ p.dedupeKey = ""))
    (hres : resolveOrder st p = (some o, orders1))
    (hstale : p.eventTs < o.lastEventTs) :
    processMessage st now msgId p =
      staleResult st orders1 (st.inbox.find? fun r => r.dedupeKey == p.dedupeKey) now := by
  unfold processMessage
  rw [if_neg hval, hres]
  dsimp only
  rw [if_pos hstale]

theorem processMessage_eq_apply (st : SystemState) (now : Int) (msgId : Nat)
    (p : IngestEventPayload) (o : OrderRow) (orders1 : List OrderRow)
    (hval : ¬ (p.orderId = "" ∨ p.dedupeKey = ""))
    (hres : resolveOrder st p = (some o, orders1))
    (hfresh : ¬ p.eventTs < o.lastEventTs) :
    processMessage st now msgId p =
      applyEvent st orders1 o (st.inbox.find? fun r => r.dedupeKey == p.dedupeKey)
        now msgId p := by
  unfold processMessage
  rw [if_neg hval, hres]
  dsimp only
  rw [if_neg hfresh]

theorem applyEvent_orders (st : SystemState) (orders1 : List OrderRow) (o : OrderRow)
    (ifound : Option InboxRow) (now : Int) (msgId : Nat) (p : IngestEventPayload) :
    (applyEvent st orders1 o ifound now msgId p).state.orders =
      updateOrderRows orders1 p.orderId (mkUpdates p) := by
  unfold applyEvent
  dsimp only
  rw [if_pos (keyCount_pos (mkUpdates p))]

theorem applyEvent_outbound (st : SystemState) (orders1 : List OrderRow) (o : OrderRow)
    (ifound : Option InboxRow) (now : Int) (msgId : Nat) (p : IngestEventPayload) :
    (applyEvent st orders1 o ifound now msgId p).state.outboundQueue =
      st.outboundQueue ++
        [{ orderId := p.orderId, changedFields := mkUpdates p,
           snapshot := applyUpdates o (mkUpdates p) }] := by
  unfold applyEvent
  dsimp only
  rw [if_pos (keyCount_pos (mkUpdates p))]

theorem applyEvent_shipments_none (st : SystemState) (orders1 : List OrderRow)
    (o : OrderRow) (ifound : Option InboxRow) (now : Int) (msgId : Nat)
    (p : IngestEventPayload) (h : courierTrack p = none) :
    (applyEvent st orders1 o ifound now msgId p).state.shipments = st.shipments := by
  unfold applyEvent
  dsimp only
  rw [show (if p.eventType = "COURIER_STATUS_UPDATE" then p.fields.trackingNumber
        else none) = none from h]

theorem applyEvent_shipments_some (st : SystemState) (orders1 : List OrderRow)
    (o : OrderRow) (ifound : Option InboxRow) (now : Int) (msgId : Nat)
    (p : IngestEventPayload) (tn : String) (h : courierTrack p = some tn) :
    (applyEvent st orders1 o ifound now msgId p).state.shipments =
      upsertByOrderId p.orderId tn (p.fields.status.getD "UNKNOWN") st.shipments := by
  unfold applyEvent
  dsimp only
  rw [show (if p.eventType = "COURIER_STATUS_UPDATE" then p.fields.trackingNumber
        else none) = some tn from h]

theorem applyEvent_inbox_none (st : SystemState) (orders1 : List OrderRow)
    (o : OrderRow) (now : Int) (msgId : Nat) (p : IngestEventPayload) :
    (applyEvent st orders1 o none now msgId p).state.inbox = st.inbox := rfl

theorem applyEvent_inbox_some (st : SystemState) (orders1 : List OrderRow)
    (o : OrderRow) (r : InboxRow) (now : Int) (msgId : Nat) (p : IngestEventPayload) :
    (applyEvent st orders1 o (some r) now msgId p).state.inbox =
      markInboxStatus st.inbox r.id "PROCESSED" now := rfl

theorem applyEvent_broadcast_courier (st : SystemState) (orders1 : List OrderRow)
    (o : OrderRow) (ifound : Option InboxRow) (now : Int) (msgId : Nat)
    (p : IngestEventPayload) (tn : String) (h : courierTrack p = some tn) :
    (applyEvent st orders1 o ifound now msgId p).broadcast =
      some
        { orderId := p.orderId
          serverTs := now
          changedFields := ChangedFields.courier p.fields.status
          summary := "Shipment Update: " ++ p.fields.status.getD "undefined" } := by
  unfold applyEvent
  dsimp only
  rw [show (if p.eventType = "COURIER_STATUS_UPDATE" then p.fields.trackingNumber
        else none) = some tn from h]

theorem applyEvent_broadcast_merchant (st : SystemState) (orders1 : List OrderRow)
    (o : OrderRow) (ifound : Option InboxRow) (now : Int) (msgId : Nat)
    (p : IngestEventPayload) (h : courierTrack p = none) :
    (applyEvent st orders1 o ifound now msgId p).broadcast =
      some
        { orderId := p.orderId
          serverTs := now
          changedFields := ChangedFields.merchant (mkUpdates p)
          summary :=
            if p.eventType = "SHOPIFY_CREATED" then "Order Created"
            else "Order Updated" } := by
  unfold applyEvent
  dsimp only
  rw [show (if p.eventType = "COURIER_STATUS_UPDATE" then p.fields.trackingNumber
        else none) = none from h]
  rw [if_pos (keyCount_pos (mkUpdates p))]

/-! ### Claim theorems -/

/-- C1 (code bug, evaluation at the failing input): a `SHOPIFY_CREATED` queue
message whose `order_id` has no existing Order row creates no Order at all —
the partial-create guard runs only for the other event types and the apply
block is guarded by `if (order)`.  The orders table stays empty, the inbox row
keeps status `RECEIVED`, and only the queue message is deleted; the full-order
creation claimed by the spec does not exist in the code. -/
theorem c1_created_event_creates_no_order :
    processMessage
        { orders := []
          shipments := []
          inbox := [receivedRow "SHOPIFY_CREATED"]
          ingestQueue := [(1, msgFor "SHOPIFY_CREATED" 1000 noExtraFields)]
          outboundQueue := []
          nextMsgId := 2 } 5000 1 (msgFor "SHOPIFY_CREATED" 1000 noExtraFields) =
      { state :=
          { orders := []
            shipments := []
            inbox := [receivedRow "SHOPIFY_CREATED"]
            ingestQueue := []
            outboundQueue := []
            nextMsgId := 2 }
        broadcast := none } := by
  decide

/-- C2 (counterexample): processing a `COURIER_STATUS_UPDATE` message whose
payload lacks a tracking number marks the inbox row `PROCESSED` without
creating any Shipment, so the claimed invariant — every `PROCESSED` courier
inbox row references an Order with at least one Shipment — holds before the
consumer transaction and is violated after it. -/
theorem c2_processed_courier_without_shipment :
    courierProcessedInv
        { orders := [baseOrder]
          shipments := []
          inbox := [receivedRow "COURIER_STATUS_UPDATE"]
          ingestQueue := [(1, msgFor "COURIER_STATUS_UPDATE" 1000 noExtraFields)]
          outboundQueue := []
          nextMsgId := 2 } ∧
      ¬ courierProcessedInv
          (processMessage
              { orders := [baseOrder]
                shipments := []
                inbox := [receivedRow "COURIER_STATUS_UPDATE"]
                ingestQueue := [(1, msgFor "COURIER_STATUS_UPDATE" 1000 noExtraFields)]
                outboundQueue := []
                nextMsgId := 2 } 5000 1
              (msgFor "COURIER_STATUS_UPDATE" 1000 noExtraFields)).state := by
  decide

/-- C3 (counterexample): a `SHOPIFY_UPDATED` payload whose address object
carries `address1` but omits `city` does NOT null the stored city.  Prisma
drops `undefined` fields from the update, so the stored city survives while
`address1` is overwritten — the claimed set-to-null-when-absent behaviour does
not happen. -/
theorem c3_absent_field_not_nulled :
    ((processMessage
        { orders := [{ baseOrder with city := some "X", addressLine1 := some "A" }]
          shipments := []
          inbox := [receivedRow "SHOPIFY_UPDATED"]
          ingestQueue := [(1, msgFor "SHOPIFY_UPDATED" 1000
            { noExtraFields with
                address := JsVal.val
                  { address1 := JsVal.val "B", address2 := JsVal.undef,
                    city := JsVal.undef, province := JsVal.undef,
                    zip := JsVal.undef, country := JsVal.undef } })]
          outboundQueue := []
          nextMsgId := 2 } 5000 1
        (msgFor "SHOPIFY_UPDATED" 1000
          { noExtraFields with
              address := JsVal.val
                { address1 := JsVal.val "B", address2 := JsVal.undef,
                  city := JsVal.undef, province := JsVal.undef,
                  zip := JsVal.undef, country := JsVal.undef } })).state.orders.map
      fun o => (o.city, o.addressLine1)) = [(some "X", some "B")] := by
  decide

/-- C5 (counterexample): a message whose `event_ts` equals the order's current
`last_event_ts` is NOT a no-op: the out-of-order check uses a strict
comparison, so the equal-timestamp replay is reapplied, enqueuing an outbound
message and producing a broadcast. -/
theorem c5_equal_timestamp_reapplied :
    ((processMessage
          { orders := [{ baseOrder with lastEventTs := 1000 }]
            shipments := []
            inbox := [receivedRow "SHOPIFY_UPDATED"]
            ingestQueue := [(1, msgFor "SHOPIFY_UPDATED" 1000 noExtraFields)]
            outboundQueue := []
            nextMsgId := 2 } 5000 1
          (msgFor "SHOPIFY_UPDATED" 1000 noExtraFields)).state.outboundQueue.length = 1) ∧
      (processMessage
          { orders := [{ baseOrder with lastEventTs := 1000 }]
            shipments := []
            inbox := [receivedRow "SHOPIFY_UPDATED"]
            ingestQueue := [(1, msgFor "SHOPIFY_UPDATED" 1000 noExtraFields)]
            outboundQueue := []
            nextMsgId := 2 } 5000 1
          (msgFor "SHOPIFY_UPDATED" 1000 noExtraFields)).broadcast ≠ none := by
  decide

/-- C8 (counterexample): processing a `COURIER_STATUS_UPDATE` message (with a
tracking number, on an existing order) DOES enqueue a message onto
`shopify_outbound`: the `updates` object always contains `lastEventTs`, so the
guard `Object.keys(updates).length > 0` holds for every event type. -/
theorem c8_courier_event_enqueues_outbound :
    (processMessage
        { orders := [baseOrder]
          shipments := []
          inbox := [receivedRow "COURIER_STATUS_UPDATE"]
          ingestQueue := [(1, msgFor "COURIER_STATUS_UPDATE" 1000 trackedFields)]
          outboundQueue := []
          nextMsgId := 2 } 5000 1
        (msgFor "COURIER_STATUS_UPDATE" 1000 trackedFields)).state.outboundQueue.length
      = 1 := by
  decide

/-- C10 (counterexample): the claimed universal — every valid, non-stale queue
message of any event type advances the order, is marked `PROCESSED`, and
produces an outbound enqueue — fails for a `SHOPIFY_CREATED` message whose
order does not exist yet: nothing is applied, the inbox row stays `RECEIVED`,
and no outbound message is enqueued. -/
theorem c10_created_missing_order_skipped :
    ((processMessage
          { orders := []
            shipments := []
            inbox := [receivedRow "SHOPIFY_CREATED"]
            ingestQueue := [(7, msgFor "SHOPIFY_CREATED" 2000 noExtraFields)]
            outboundQueue := []
            nextMsgId := 8 } 9000 7
          (msgFor "SHOPIFY_CREATED" 2000 noExtraFields)).state.inbox.map
        InboxRow.status = ["RECEIVED"]) ∧
      (processMessage
          { orders := []
            shipments := []
            inbox := [receivedRow "SHOPIFY_CREATED"]
            ingestQueue := [(7, msgFor "SHOPIFY_CREATED" 2000 noExtraFields)]
            outboundQueue := []
            nextMsgId := 8 } 9000 7
          (msgFor "SHOPIFY_CREATED" 2000 noExtraFields)).state.outboundQueue = [] := by
  decide

/-- C4 (counterexample): when `insertEvent` fails for a non-dedupe reason
(`infraFail = true` on a fresh dedupe key), the Shopify webhook endpoint
catches the exception and answers with the 2xx body `status: 'Error'` — a
success response, not a 5xx. -/
theorem c4_shopify_failure_reported_as_success :
    (handleOrderWebhook emptyState
          { id := some "o1", updatedAt := some 1000, createdAt := none,
            fields := noExtraFields }
          (some "w1") (some "SHOPIFY_UPDATED") 0 "id1" true).2 =
        WebhookResponse.errorBody ∧
      WebhookResponse.statusCode
          (handleOrderWebhook emptyState
              { id := some "o1", updatedAt := some 1000, createdAt := none,
                fields := noExtraFields }
              (some "w1") (some "SHOPIFY_UPDATED") 0 "id1" true).2 = 201 := by
  decide

/-- C7 (counterexample): on an upstream 500 the outbound worker only logs and
returns — the claimed message is NOT deleted from the queue, so it will become
visible again and be redelivered. -/
theorem c7_non2xx_message_not_deleted :
    outboundProcessMessage
        { queue := [{ msgId := 1, payload := sampleOutbound, delaySeconds := 0 }]
          nextMsgId := 2 }
        1 sampleOutbound { status := 500, retryAfter := none } =
      { queue := [{ msgId := 1, payload := sampleOutbound, delaySeconds := 0 }]
        nextMsgId := 2 } := by
  decide

/-- C7 (amended): for every claimed `shopify_outbound` message whose upstream
POST returns a non-2xx status other than 429, the dispatcher logs and returns
WITHOUT deleting the message: the worker state (queue included) is unchanged,
and the message is left to become visible again and be redelivered. -/
theorem c7_non2xx_leaves_queue_unchanged (st : OutboundWorkerState) (msgId : Nat)
    (p : OutboundMsg) (resp : UpstreamResponse)
    (hnok : ¬ responseOk resp.status) (h429 : resp.status ≠ 429) :
    outboundProcessMessage st msgId p resp = st := by
  unfold outboundProcessMessage
  rw [if_neg h429, if_pos hnok]

theorem c7_non2xx_leaves_queue_unchanged_witness :
    outboundProcessMessage
        { queue := [{ msgId := 3, payload := sampleOutbound, delaySeconds := 0 }]
          nextMsgId := 4 }
        3 sampleOutbound { status := 404, retryAfter := none } =
      { queue := [{ msgId := 3, payload := sampleOutbound, delaySeconds := 0 }]
        nextMsgId := 4 } :=
  c7_non2xx_leaves_queue_unchanged
    { queue := [{ msgId := 3, payload := sampleOutbound, delaySeconds := 0 }]
      nextMsgId := 4 }
    3 sampleOutbound { status := 404, retryAfter := none } (by decide) (by decide)

/-- C5 (amended): only a STRICTLY older event is a no-op: when `event_ts` is
strictly below the order's `last_event_ts`, the order, shipment and outbound
queues are untouched and no broadcast is produced (the inbox row is marked
`IGNORED_STALE`).  An event with `event_ts` equal to `last_event_ts` is
reapplied and does produce an outbound enqueue and a broadcast. -/
theorem c5_strictly_older_is_noop (st : SystemState) (now : Int) (msgId : Nat)
    (p : IngestEventPayload) (o : OrderRow)
    (hval : ¬ (p.orderId = "" ∨ p.dedupeKey = ""))
    (hfound : st.orders.find? (fun x => x.orderId == p.orderId) = some o)
    (hstale : p.eventTs < o.lastEventTs) :
    (processMessage st now msgId p).state.orders = st.orders ∧
      (processMessage st now msgId p).state.shipments = st.shipments ∧
      (processMessage st now msgId p).state.outboundQueue = st.outboundQueue ∧
      (processMessage st now msgId p).broadcast = none := by
  rw [processMessage_eq_stale st now msgId p o st.orders hval
    (resolveOrder_found st p o hfound) hstale]
  exact ⟨rfl, rfl, rfl, rfl⟩

theorem c5_strictly_older_is_noop_witness :
    (processMessage
          { orders := [{ baseOrder with lastEventTs := 1000 }]
            shipments := []
            inbox := [receivedRow "SHOPIFY_UPDATED"]
            ingestQueue := [(1, msgFor "SHOPIFY_UPDATED" 500 noExtraFields)]
            outboundQueue := []
            nextMsgId := 2 } 5000 1
          (msgFor "SHOPIFY_UPDATED" 500 noExtraFields)).state.orders =
        [{ baseOrder with lastEventTs := 1000 }] ∧
      (processMessage
          { orders := [{ baseOrder with lastEventTs := 1000 }]
            shipments := []
            inbox := [receivedRow "SHOPIFY_UPDATED"]
            ingestQueue := [(1, msgFor "SHOPIFY_UPDATED" 500 noExtraFields)]
            outboundQueue := []
            nextMsgId := 2 } 5000 1
          (msgFor "SHOPIFY_UPDATED" 500 noExtraFields)).state.shipments = [] ∧
      (processMessage
          { orders := [{ baseOrder with lastEventTs := 1000 }]
            shipments := []
            inbox := [receivedRow "SHOPIFY_UPDATED"]
            ingestQueue := [(1, msgFor "SHOPIFY_UPDATED" 500 noExtraFields)]
            outboundQueue := []
            nextMsgId := 2 } 5000 1
          (msgFor "SHOPIFY_UPDATED" 500 noExtraFields)).state.outboundQueue = [] ∧
      (processMessage
          { orders := [{ baseOrder with lastEventTs := 1000 }]
            shipments := []
            inbox := [receivedRow "SHOPIFY_UPDATED"]
            ingestQueue := [(1, msgFor "SHOPIFY_UPDATED" 500 noExtraFields)]
            outboundQueue := []
            nextMsgId := 2 } 5000 1
          (msgFor "SHOPIFY_UPDATED" 500 noExtraFields)).broadcast = none :=
  c5_strictly_older_is_noop
    { orders := [{ baseOrder with lastEventTs := 1000 }]
      shipments := []
      inbox := [receivedRow "SHOPIFY_UPDATED"]
      ingestQueue := [(1, msgFor "SHOPIFY_UPDATED" 500 noExtraFields)]
      outboundQueue := []
      nextMsgId := 2 } 5000 1 (msgFor "SHOPIFY_UPDATED" 500 noExtraFields)
    { baseOrder with lastEventTs := 1000 } (by decide) (by decide) (by decide)

/-- C6 (confirmed): processing a message for an existing order with `event_ts`
strictly below `last_event_ts` marks the inbox row `IGNORED_STALE` with
`processed_at` set and leaves the Order rows untouched (the model is total, so
no error is raised); and across every processed message the order's
`last_event_ts` is monotone non-decreasing.  (`last_event_ts` is a non-null
column, so the source's truthiness guard on it always passes.) -/
theorem c6_stale_marked_and_monotone :
    (∀ (st : SystemState) (now : Int) (msgId : Nat) (p : IngestEventPayload)
        (o : OrderRow) (r : InboxRow),
        ¬ (p.orderId = "" ∨ p.dedupeKey = "") →
        st.orders.find? (fun x => x.orderId == p.orderId) = some o →
        p.eventTs < o.lastEventTs →
        st.inbox.find? (fun x => x.dedupeKey == p.dedupeKey) = some r →
        (processMessage st now msgId p).state.orders = st.orders ∧
          { r with status := "IGNORED_STALE", processedAt := some now } ∈
            (processMessage st now msgId p).state.inbox) ∧
    ∀ (st : SystemState) (now : Int) (msgId : Nat) (p : IngestEventPayload)
        (o o2 : OrderRow),
        st.orders.find? (fun x => x.orderId == p.orderId) = some o →
        (processMessage st now msgId p).state.orders.find?
            (fun x => x.orderId == p.orderId) = some o2 →
        o.lastEventTs ≤ o2.lastEventTs := by
  constructor
  · intro st now msgId p o r hval hfound hstale hif
    rw [processMessage_eq_stale st now msgId p o st.orders hval
      (resolveOrder_found st p o hfound) hstale]
    unfold staleResult
    rw [hif]
    refine ⟨rfl, ?_⟩
    exact markInboxStatus_mem_updated st.inbox r (List.mem_of_find?_eq_some hif)
      "IGNORED_STALE" now
  · intro st now msgId p o o2 hfound hfind2
    by_cases hval : p.orderId = "" ∨ p.dedupeKey = ""
    · unfold processMessage at hfind2
      rw [if_pos hval] at hfind2
      have : some o = some o2 := hfound ▸ hfind2
      cases this
      exact le_refl _
    · by_cases hstale : p.eventTs < o.lastEventTs
      · rw [processMessage_eq_stale st now msgId p o st.orders hval
          (resolveOrder_found st p o hfound) hstale] at hfind2
        unfold staleResult at hfind2
        have : some o = some o2 := hfound ▸ hfind2
        cases this
        exact le_refl _
      · rw [processMessage_eq_apply st now msgId p o st.orders hval
            (resolveOrder_found st p o hfound) hstale,
          applyEvent_orders, find?_updateOrderRows, hfound] at hfind2
        have ho2 : applyUpdates o (mkUpdates p) = o2 := by
          simpa using hfind2
        rw [← ho2, applyUpdates_lastEventTs, mkUpdates_lastEventTs]
        exact Int.not_lt.mp hstale

theorem c6_stale_marked_and_monotone_witness :
    (processMessage
          { orders := [{ baseOrder with lastEventTs := 1000 }]
            shipments := []
            inbox := [receivedRow "SHOPIFY_UPDATED"]
            ingestQueue := [(1, msgFor "SHOPIFY_UPDATED" 400 noExtraFields)]
            outboundQueue := []
            nextMsgId := 2 } 7000 1
          (msgFor "SHOPIFY_UPDATED" 400 noExtraFields)).state.orders =
        [{ baseOrder with lastEventTs := 1000 }] ∧
      { receivedRow "SHOPIFY_UPDATED" with
          status := "IGNORED_STALE", processedAt := some 7000 } ∈
        (processMessage
            { orders := [{ baseOrder with lastEventTs := 1000 }]
              shipments := []
              inbox := [receivedRow "SHOPIFY_UPDATED"]
              ingestQueue := [(1, msgFor "SHOPIFY_UPDATED" 400 noExtraFields)]
              outboundQueue := []
              nextMsgId := 2 } 7000 1
            (msgFor "SHOPIFY_UPDATED" 400 noExtraFields)).state.inbox :=
  c6_stale_marked_and_monotone.1
    { orders := [{ baseOrder with lastEventTs := 1000 }]
      shipments := []
      inbox := [receivedRow "SHOPIFY_UPDATED"]
      ingestQueue := [(1, msgFor "SHOPIFY_UPDATED" 400 noExtraFields)]
      outboundQueue := []
      nextMsgId := 2 } 7000 1 (msgFor "SHOPIFY_UPDATED" 400 noExtraFields)
    { baseOrder with lastEventTs := 1000 } (receivedRow "SHOPIFY_UPDATED")
    (by decide) (by decide) (by decide) (by decide)

/-- C3 (amended): on a `SHOPIFY_CREATED` or `SHOPIFY_UPDATED` event applied to
an existing order, each of the six shipping-address fields follows Prisma
per-field semantics of the assigned `payload.address?.<component>` value: a
component present with a value overwrites, a component explicitly null clears
the field, and a component ABSENT from the payload leaves the stored value
unchanged (it is `undefined` and dropped from the update — not set to null);
`last_event_ts` is always advanced to `event_ts`. -/
theorem c3_address_update_per_field (st : SystemState) (now : Int) (msgId : Nat)
    (p : IngestEventPayload) (o : OrderRow)
    (hval : ¬ (p.orderId = "" ∨ p.dedupeKey = ""))
    (hfound : st.orders.find? (fun x => x.orderId == p.orderId) = some o)
    (hfresh : ¬ p.eventTs < o.lastEventTs)
    (het : p.eventType = "SHOPIFY_CREATED" ∨ p.eventType = "SHOPIFY_UPDATED") :
    ∃ o2,
      (processMessage st now msgId p).state.orders.find?
          (fun x => x.orderId == p.orderId) = some o2 ∧
      o2.addressLine1 = (jsChain p.fields.address Address.address1).applyTo o.addressLine1 ∧
      o2.addressLine2 = (jsChain p.fields.address Address.address2).applyTo o.addressLine2 ∧
      o2.city = (jsChain p.fields.address Address.city).applyTo o.city ∧
      o2.state = (jsChain p.fields.address Address.province).applyTo o.state ∧
      o2.postalCode = (jsChain p.fields.address Address.zip).applyTo o.postalCode ∧
      o2.country = (jsChain p.fields.address Address.country).applyTo o.country ∧
      o2.lastEventTs = p.eventTs := by
  refine ⟨applyUpdates o (mkUpdates p), ?_, ?_⟩
  · rw [processMessage_eq_apply st now msgId p o st.orders hval
        (resolveOrder_found st p o hfound) hfresh,
      applyEvent_orders, find?_updateOrderRows, hfound]
    rfl
  · unfold applyUpdates mkUpdates mkAddressUpdates
    rw [if_pos het]
    exact ⟨rfl, rfl, rfl, rfl, rfl, rfl, rfl⟩

theorem c3_address_update_per_field_witness :
    ∃ o2,
      (processMessage
          { orders := [{ baseOrder with city := some "X", addressLine1 := some "A" }]
            shipments := []
            inbox := [receivedRow "SHOPIFY_UPDATED"]
            ingestQueue := []
            outboundQueue := []
            nextMsgId := 2 } 5000 1
          (msgFor "SHOPIFY_UPDATED" 1000
            { noExtraFields with
                address := JsVal.val
                  { address1 := JsVal.val "B", address2 := JsVal.undef,
                    city := JsVal.null, province := JsVal.undef,
                    zip := JsVal.undef, country := JsVal.undef } })).state.orders.find?
          (fun x => x.orderId == "o1") = some o2 ∧
      o2.addressLine1 = some "B" ∧
      o2.addressLine2 = none ∧
      o2.city = none ∧
      o2.state = none ∧
      o2.postalCode = none ∧
      o2.country = none ∧
      o2.lastEventTs = 1000 :=
  c3_address_update_per_field
    { orders := [{ baseOrder with city := some "X", addressLine1 := some "A" }]
      shipments := []
      inbox := [receivedRow "SHOPIFY_UPDATED"]
      ingestQueue := []
      outboundQueue := []
      nextMsgId := 2 } 5000 1
    (msgFor "SHOPIFY_UPDATED" 1000
      { noExtraFields with
          address := JsVal.val
            { address1 := JsVal.val "B", address2 := JsVal.undef,
              city := JsVal.null, province := JsVal.undef,
              zip := JsVal.undef, country := JsVal.undef } })
    { baseOrder with city := some "X", addressLine1 := some "A" }
    (by decide) (by decide) (by decide) (by decide)

/-- C4 (amended): when `insertEvent` fails for a non-dedupe reason, only the
courier endpoint propagates the failure as a 5xx; the Shopify webhook endpoint
catches it and reports the 2xx body `status: 'Error'` to the caller. -/
theorem c4_only_courier_reports_5xx :
    (∀ (st : SystemState) (p : CourierEventPayload) (newId oid et : String) (ts : Int),
        p.orderId = some oid → p.eventType = some et → p.eventTs = some ts →
        (st.inbox.any fun r => r.dedupeKey ==
          computeDedupeKey ["courier", oid, et, toString ts, stableHash p.fields]) = false →
        (handleCourierEvent st p newId true).2 = CourierResponse.serverError ∧
          CourierResponse.statusCode (handleCourierEvent st p newId true).2 = 500) ∧
    ∀ (st : SystemState) (q : ShopifyOrderPayload) (w topicv : String)
        (now : Int) (newId oid : String),
        q.id = some oid →
        (st.inbox.any fun r => r.dedupeKey == "shopify:" ++ w) = false →
        (handleOrderWebhook st q (some w) (some topicv) now newId true).2 =
            WebhookResponse.errorBody ∧
          WebhookResponse.statusCode
            (handleOrderWebhook st q (some w) (some topicv) now newId true).2 = 201 := by
  constructor
  · intro st p newId oid et ts ho he hts hdup
    unfold handleCourierEvent
    rw [ho, he, hts]
    simp only [insertEvent, hdup, Bool.false_eq_true, if_false, if_true]
    exact ⟨trivial, rfl⟩
  · intro st q w topicv now newId oid hid hdup
    unfold handleOrderWebhook
    rw [hid]
    simp only [insertEvent, hdup, Bool.false_eq_true, if_false, if_true]
    exact ⟨trivial, rfl⟩

theorem c4_only_courier_reports_5xx_witness :
    ((handleCourierEvent emptyState
          { orderId := some "o1", eventType := some "COURIER_STATUS_UPDATE",
            eventTs := some 1000, fields := noExtraFields }
          "id9" true).2 = CourierResponse.serverError ∧
        CourierResponse.statusCode
          (handleCourierEvent emptyState
              { orderId := some "o1", eventType := some "COURIER_STATUS_UPDATE",
                eventTs := some 1000, fields := noExtraFields }
              "id9" true).2 = 500) ∧
      (handleOrderWebhook emptyState
            { id := some "o1", updatedAt := some 1000, createdAt := none,
              fields := noExtraFields }
            (some "w9") (some "SHOPIFY_UPDATED") 0 "id9" true).2 =
          WebhookResponse.errorBody ∧
        WebhookResponse.statusCode
          (handleOrderWebhook emptyState
              { id := some "o1", updatedAt := some 1000, createdAt := none,
                fields := noExtraFields }
              (some "w9") (some "SHOPIFY_UPDATED") 0 "id9" true).2 = 201 :=
  ⟨c4_only_courier_reports_5xx.1 emptyState
      { orderId := some "o1", eventType := some "COURIER_STATUS_UPDATE",
        eventTs := some 1000, fields := noExtraFields }
      "id9" "o1" "COURIER_STATUS_UPDATE" 1000 rfl rfl rfl (by decide),
    c4_only_courier_reports_5xx.2 emptyState
      { id := some "o1", updatedAt := some 1000, createdAt := none,
        fields := noExtraFields }
      "w9" "SHOPIFY_UPDATED" 0 "id9" "o1" rfl (by decide)⟩

/-- C9 (confirmed): `insertEvent` commits the inbox row and the queue message
atomically in one transaction.  Exactly when a row with the same dedupe key
already exists, it returns `inserted: false` with no error, no new row and no
enqueue; with a fresh key, an infrastructure failure inside the transaction
propagates as an error with neither the row nor the message committed;
otherwise both the row and the message are appended together. -/
theorem c9_insert_event_contract :
    (∀ (st : SystemState) (e : NewInboxEvent) (fail : Bool) (r : InboxRow),
        r ∈ st.inbox → r.dedupeKey = e.dedupeKey →
        insertEvent st e fail = .ok (st, { inserted := false, id := none })) ∧
    (∀ (st : SystemState) (e : NewInboxEvent),
        (∀ r ∈ st.inbox, r.dedupeKey ≠ e.dedupeKey) →
        insertEvent st e true = .error ()) ∧
    ∀ (st : SystemState) (e : NewInboxEvent),
        (∀ r ∈ st.inbox, r.dedupeKey ≠ e.dedupeKey) →
        ∃ st2,
          insertEvent st e false = .ok (st2, { inserted := true, id := some e.newId }) ∧
          st2.inbox = st.inbox ++ [inboxRowOf e] ∧
          st2.ingestQueue = st.ingestQueue ++ [(st.nextMsgId, queueMessageOf e)] ∧
          st2.orders = st.orders ∧ st2.shipments = st.shipments ∧
          st2.outboundQueue = st.outboundQueue := by
  refine ⟨?_, ?_, ?_⟩
  · intro st e fail r hr hk
    have hdup : (st.inbox.any fun x => x.dedupeKey == e.dedupeKey) = true :=
      List.any_eq_true.mpr ⟨r, hr, beq_iff_eq.mpr hk⟩
    unfold insertEvent
    rw [if_pos hdup]
  · intro st e hfresh
    have hdup : (st.inbox.any fun x => x.dedupeKey == e.dedupeKey) = false := by
      rw [List.any_eq_false]
      intro r hr
      simpa using hfresh r hr
    unfold insertEvent
    rw [hdup]
    simp
  · intro st e hfresh
    have hdup : (st.inbox.any fun x => x.dedupeKey == e.dedupeKey) = false := by
      rw [List.any_eq_false]
      intro r hr
      simpa using hfresh r hr
    refine ⟨{ st with
        inbox := st.inbox ++ [inboxRowOf e]
        ingestQueue := st.ingestQueue ++ [(st.nextMsgId, queueMessageOf e)]
        nextMsgId := st.nextMsgId + 1 }, ?_, rfl, rfl, rfl, rfl, rfl⟩
    unfold insertEvent
    rw [hdup]
    simp

theorem c9_insert_event_contract_witness :
    insertEvent
        { emptyState with inbox := [receivedRow "SHOPIFY_UPDATED"] }
        { newId := "n1", dedupeKey := "d1", source := "shopify", orderId := "o1",
          eventType := "SHOPIFY_UPDATED", eventTs := 1000, fields := noExtraFields }
        false =
      .ok ({ emptyState with inbox := [receivedRow "SHOPIFY_UPDATED"] },
        { inserted := false, id := none }) :=
  c9_insert_event_contract.1
    { emptyState with inbox := [receivedRow "SHOPIFY_UPDATED"] }
    { newId := "n1", dedupeKey := "d1", source := "shopify", orderId := "o1",
      eventType := "SHOPIFY_UPDATED", eventTs := 1000, fields := noExtraFields }
    false (receivedRow "SHOPIFY_UPDATED") (by decide) (by decide)

/-- C8 (amended): an outbound enqueue happens for EVERY applied event,
regardless of its type — including `COURIER_STATUS_UPDATE` — because the
`updates` object always contains `lastEventTs` and the enqueue block is guarded
only by `Object.keys(updates).length > 0`.  The supersede half of the claim
does hold: when the message is a courier update with a tracking number, the
courier broadcast overwrites the merchant broadcast produced by the same
message. -/
theorem c8_outbound_for_all_event_types (st : SystemState) (now : Int) (msgId : Nat)
    (p : IngestEventPayload) (o : OrderRow)
    (hval : ¬ (p.orderId = "" ∨ p.dedupeKey = ""))
    (hfound : st.orders.find? (fun x => x.orderId == p.orderId) = some o)
    (hfresh : ¬ p.eventTs < o.lastEventTs) :
    (processMessage st now msgId p).state.outboundQueue =
      st.outboundQueue ++
        [{ orderId := p.orderId, changedFields := mkUpdates p,
           snapshot := applyUpdates o (mkUpdates p) }] ∧
    ∀ tn, p.eventType = "COURIER_STATUS_UPDATE" → p.fields.trackingNumber = some tn →
      (processMessage st now msgId p).broadcast =
        some
          { orderId := p.orderId
            serverTs := now
            changedFields := ChangedFields.courier p.fields.status
            summary := "Shipment Update: " ++ p.fields.status.getD "undefined" } := by
  rw [processMessage_eq_apply st now msgId p o st.orders hval
    (resolveOrder_found st p o hfound) hfresh]
  constructor
  · exact applyEvent_outbound st st.orders o _ now msgId p
  · intro tn het htn
    refine applyEvent_broadcast_courier st st.orders o _ now msgId p tn ?_
    unfold courierTrack
    rw [if_pos het, htn]

theorem c8_outbound_for_all_event_types_witness :
    (processMessage
          { orders := [baseOrder]
            shipments := []
            inbox := [receivedRow "COURIER_STATUS_UPDATE"]
            ingestQueue := [(1, msgFor "COURIER_STATUS_UPDATE" 1000 trackedFields)]
            outboundQueue := []
            nextMsgId := 2 } 5000 1
          (msgFor "COURIER_STATUS_UPDATE" 1000 trackedFields)).state.outboundQueue =
        [] ++
          [{ orderId := "o1",
             changedFields := mkUpdates (msgFor "COURIER_STATUS_UPDATE" 1000 trackedFields),
             snapshot := applyUpdates baseOrder
               (mkUpdates (msgFor "COURIER_STATUS_UPDATE" 1000 trackedFields)) }] ∧
      ∀ tn, (msgFor "COURIER_STATUS_UPDATE" 1000 trackedFields).eventType =
            "COURIER_STATUS_UPDATE" →
        (msgFor "COURIER_STATUS_UPDATE" 1000 trackedFields).fields.trackingNumber =
            some tn →
        (processMessage
            { orders := [baseOrder]
              shipments := []
              inbox := [receivedRow "COURIER_STATUS_UPDATE"]
              ingestQueue := [(1, msgFor "COURIER_STATUS_UPDATE" 1000 trackedFields)]
              outboundQueue := []
              nextMsgId := 2 } 5000 1
            (msgFor "COURIER_STATUS_UPDATE" 1000 trackedFields)).broadcast =
          some
            { orderId := "o1"
              serverTs := 5000
              changedFields := ChangedFields.courier (some "SHIPPED")
              summary := "Shipment Update: " ++ "SHIPPED" } :=
  c8_outbound_for_all_event_types
    { orders := [baseOrder]
      shipments := []
      inbox := [receivedRow "COURIER_STATUS_UPDATE"]
      ingestQueue := [(1, msgFor "COURIER_STATUS_UPDATE" 1000 trackedFields)]
      outboundQueue := []
      nextMsgId := 2 } 5000 1 (msgFor "COURIER_STATUS_UPDATE" 1000 trackedFields)
    baseOrder (by decide) (by decide) (by decide)

theorem find?_append_of_none {α : Type} (l1 l2 : List α) (p : α → Bool)
    (h : l1.find? p = none) : (l1 ++ l2).find? p = l2.find? p := by
  induction l1 with
  | nil => rfl
  | cons a rest ih =>
    by_cases hp : p a = true
    · rw [List.find?_cons_of_pos _ hp] at h
      cases h
    · rw [List.find?_cons_of_neg _ hp] at h
      rw [List.cons_append, List.find?_cons_of_neg _ hp]
      exact ih h

/-- C10 (amended): a webhook with no `x-shopify-topic` header is accepted with
`event_type = "unknown"`; and a valid, non-stale queue message of ANY event
type — unrecognized ones included — is never filtered out: provided an Order
row exists, or the partial-create guard applies (the order is missing and the
event type is not `SHOPIFY_CREATED`), the consumer advances `last_event_ts` to
`event_ts`, marks the inbox row `PROCESSED`, and enqueues one message onto
`shopify_outbound`.  The sole exception is a `SHOPIFY_CREATED` message whose
order does not exist, where nothing is applied. -/
theorem c10_unknown_types_never_filtered :
    (∀ (st : SystemState) (q : ShopifyOrderPayload) (w : String) (now : Int)
        (newId oid : String),
        q.id = some oid →
        (st.inbox.any fun r => r.dedupeKey == "shopify:" ++ w) = false →
        (handleOrderWebhook st q (some w) none now newId false).2 =
            WebhookResponse.accepted (some newId) ∧
          ∃ r ∈ (handleOrderWebhook st q (some w) none now newId false).1.inbox,
            r.dedupeKey = "shopify:" ++ w ∧ r.eventType = "unknown" ∧
              r.status = "RECEIVED") ∧
    (∀ (st : SystemState) (now : Int) (msgId : Nat) (p : IngestEventPayload)
        (o : OrderRow) (r : InboxRow),
        ¬ (p.orderId = "" ∨ p.dedupeKey = "") →
        st.orders.find? (fun x => x.orderId == p.orderId) = some o →
        ¬ p.eventTs < o.lastEventTs →
        st.inbox.find? (fun x => x.dedupeKey == p.dedupeKey) = some r →
        (∃ o2, (processMessage st now msgId p).state.orders.find?
              (fun x => x.orderId == p.orderId) = some o2 ∧
            o2.lastEventTs = p.eventTs) ∧
          { r with status := "PROCESSED", processedAt := some now } ∈
            (processMessage st now msgId p).state.inbox ∧
          (processMessage st now msgId p).state.outboundQueue.length =
            st.outboundQueue.length + 1) ∧
    ∀ (st : SystemState) (now : Int) (msgId : Nat) (p : IngestEventPayload)
        (r : InboxRow),
        ¬ (p.orderId = "" ∨ p.dedupeKey = "") →
        st.orders.find? (fun x => x.orderId == p.orderId) = none →
        p.eventType ≠ "SHOPIFY_CREATED" →
        0 ≤ p.eventTs →
        st.inbox.find? (fun x => x.dedupeKey == p.dedupeKey) = some r →
        (∃ o2, (processMessage st now msgId p).state.orders.find?
              (fun x => x.orderId == p.orderId) = some o2 ∧
            o2.lastEventTs = p.eventTs ∧ o2.status = "PENDING_PARTIAL") ∧
          { r with status := "PROCESSED", processedAt := some now } ∈
            (processMessage st now msgId p).state.inbox ∧
          (processMessage st now msgId p).state.outboundQueue.length =
            st.outboundQueue.length + 1 := by
  refine ⟨?_, ?_, ?_⟩
  · intro st q w now newId oid hid hdup
    unfold handleOrderWebhook
    rw [hid]
    simp only [insertEvent, hdup, Bool.false_eq_true, if_false, if_true,
      Option.getD_none]
    refine ⟨trivial, inboxRowOf
        { newId := newId, dedupeKey := "shopify:" ++ w, source := "shopify",
          orderId := oid, eventType := "unknown",
          eventTs := (q.updatedAt.orElse fun _ => q.createdAt).getD now,
          fields := q.fields }, ?_, rfl, rfl, rfl⟩
    exact List.mem_append_right _ (List.mem_singleton_self _)
  · intro st now msgId p o r hval hfound hfresh hif
    rw [processMessage_eq_apply st now msgId p o st.orders hval
      (resolveOrder_found st p o hfound) hfresh]
    refine ⟨⟨applyUpdates o (mkUpdates p), ?_, ?_⟩, ?_, ?_⟩
    · rw [applyEvent_orders, find?_updateOrderRows, hfound]
      rfl
    · rw [applyUpdates_lastEventTs, mkUpdates_lastEventTs]
    · unfold applyEvent
      dsimp only
      rw [hif]
      exact markInboxStatus_mem_updated st.inbox r (List.mem_of_find?_eq_some hif)
        "PROCESSED" now
    · rw [applyEvent_outbound]
      simp
  · intro st now msgId p r hval hmiss hnc hpos hif
    have hres := resolveOrder_missing_other st p hmiss hnc
    have hfresh : ¬ p.eventTs < (minimalOrderRow p).lastEventTs := by
      simp only [minimalOrderRow]
      omega
    rw [processMessage_eq_apply st now msgId p (minimalOrderRow p)
      (st.orders ++ [minimalOrderRow p]) hval hres hfresh]
    refine ⟨⟨applyUpdates (minimalOrderRow p) (mkUpdates p), ?_, ?_, ?_⟩, ?_, ?_⟩
    · rw [applyEvent_orders, find?_updateOrderRows,
        find?_append_of_none st.orders _ _ hmiss]
      have hsing : List.find? (fun x => x.orderId == p.orderId) [minimalOrderRow p] =
          some (minimalOrderRow p) := by
        simp [minimalOrderRow]
      rw [hsing]
      rfl
    · rw [applyUpdates_lastEventTs, mkUpdates_lastEventTs]
    · unfold applyUpdates mkUpdates minimalOrderRow
      rcases h2 : (if p.eventType = "SHOPIFY_CREATED" ∨ p.eventType = "SHOPIFY_UPDATED"
          then some (mkAddressUpdates p.fields.address) else none) with _ | a <;>
        rcases p.fields.shippingFeeCents with _ | v <;> rfl
    · unfold applyEvent
      dsimp only
      rw [hif]
      exact markInboxStatus_mem_updated st.inbox r (List.mem_of_find?_eq_some hif)
        "PROCESSED" now
    · rw [applyEvent_outbound]
      simp

theorem c10_unknown_types_never_filtered_witness :
    (∃ o2, (processMessage
            { orders := [baseOrder]
              shipments := []
              inbox := [receivedRow "SOME_FUTURE_EVENT"]
              ingestQueue := [(1, msgFor "SOME_FUTURE_EVENT" 1500 noExtraFields)]
              outboundQueue := []
              nextMsgId := 2 } 5000 1
            (msgFor "SOME_FUTURE_EVENT" 1500 noExtraFields)).state.orders.find?
            (fun x => x.orderId == "o1") = some o2 ∧
        o2.lastEventTs = 1500) ∧
      { receivedRow "SOME_FUTURE_EVENT" with
          status := "PROCESSED", processedAt := some 5000 } ∈
        (processMessage
            { orders := [baseOrder]
              shipments := []
              inbox := [receivedRow "SOME_FUTURE_EVENT"]
              ingestQueue := [(1, msgFor "SOME_FUTURE_EVENT" 1500 noExtraFields)]
              outboundQueue := []
              nextMsgId := 2 } 5000 1
            (msgFor "SOME_FUTURE_EVENT" 1500 noExtraFields)).state.inbox ∧
      (processMessage
          { orders := [baseOrder]
            shipments := []
            inbox := [receivedRow "SOME_FUTURE_EVENT"]
            ingestQueue := [(1, msgFor "SOME_FUTURE_EVENT" 1500 noExtraFields)]
            outboundQueue := []
            nextMsgId := 2 } 5000 1
          (msgFor "SOME_FUTURE_EVENT" 1500 noExtraFields)).state.outboundQueue.length =
        List.length ([] : List OutboundMsg) + 1 :=
  c10_unknown_types_never_filtered.2.1
    { orders := [baseOrder]
      shipments := []
      inbox := [receivedRow "SOME_FUTURE_EVENT"]
      ingestQueue := [(1, msgFor "SOME_FUTURE_EVENT" 1500 noExtraFields)]
      outboundQueue := []
      nextMsgId := 2 } 5000 1 (msgFor "SOME_FUTURE_EVENT" 1500 noExtraFields)
    baseOrder (receivedRow "SOME_FUTURE_EVENT")
    (by decide) (by decide) (by decide) (by decide)

/-- The stale branch preserves the courier-shipment invariant: orders only
grow, shipments are untouched, and inbox statuses are only moved away from
`PROCESSED`. -/
theorem courierInv_staleResult (st : SystemState) (orders1 : List OrderRow)
    (ifound : Option InboxRow) (now : Int)
    (hinv : courierProcessedInv st)
    (hmono : ∀ k, (∃ x ∈ st.orders, x.orderId = k) → ∃ x ∈ orders1, x.orderId = k) :
    courierProcessedInv (staleResult st orders1 ifound now).state := by
  intro r' hr' hst hct
  cases ifound with
  | none =>
    have hold := hinv r' hr' hst hct
    exact ⟨hmono _ hold.1, hold.2⟩
  | some rf =>
    obtain ⟨r0, hr0, hcase⟩ :=
      mem_markInboxStatus st.inbox rf.id "IGNORED_STALE" now r' hr'
    rcases hcase with ⟨-, heq⟩ | ⟨-, heq⟩ <;> subst heq
    · have hold := hinv _ hr0 hst hct
      exact ⟨hmono _ hold.1, hold.2⟩
    · simp at hst

/-- The apply branch preserves the courier-shipment invariant, provided courier
messages carry a tracking number and the inbox row registered under the
message's dedupe key agrees with the message on event type and order id. -/
theorem courierInv_applyEvent (st : SystemState) (orders1 : List OrderRow)
    (o : OrderRow) (now : Int) (msgId : Nat) (p : IngestEventPayload)
    (hinv : courierProcessedInv st)
    (hids : ∀ r ∈ st.inbox, ∀ s ∈ st.inbox, r.id = s.id → r = s)
    (hcons : ∀ r ∈ st.inbox, r.dedupeKey = p.dedupeKey →
      r.eventType = p.eventType ∧ r.orderId = p.orderId)
    (htrack : p.eventType = "COURIER_STATUS_UPDATE" → p.fields.trackingNumber.isSome)
    (hmono : ∀ k, (∃ x ∈ st.orders, x.orderId = k) → ∃ x ∈ orders1, x.orderId = k)
    (hself : ∃ x ∈ orders1, x.orderId = p.orderId) :
    courierProcessedInv
      (applyEvent st orders1 o (st.inbox.find? fun r => r.dedupeKey == p.dedupeKey)
        now msgId p).state := by
  intro r' hr' hst hct
  cases hfi : st.inbox.find? (fun r => r.dedupeKey == p.dedupeKey) with
  | none =>
    rw [hfi, applyEvent_inbox_none] at hr'
    have hold := hinv r' hr' hst hct
    rw [applyEvent_orders]
    refine ⟨mem_updateOrderRows_of_mem _ _ _ _ (hmono _ hold.1), ?_⟩
    cases hctr : courierTrack p with
    | none =>
      rw [applyEvent_shipments_none st orders1 o none now msgId p hctr]
      exact hold.2
    | some tn =>
      rw [applyEvent_shipments_some st orders1 o none now msgId p tn hctr]
      exact upsert_mem_of_mem _ _ _ _ _ hold.2
  | some rf =>
    rw [hfi, applyEvent_inbox_some] at hr'
    rw [applyEvent_orders]
    obtain ⟨r0, hr0, hcase⟩ :=
      mem_markInboxStatus st.inbox rf.id "PROCESSED" now r' hr'
    rcases hcase with ⟨-, heq⟩ | ⟨hid, heq⟩ <;> subst heq
    · have hold := hinv _ hr0 hst hct
      refine ⟨mem_updateOrderRows_of_mem _ _ _ _ (hmono _ hold.1), ?_⟩
      cases hctr : courierTrack p with
      | none =>
        rw [applyEvent_shipments_none st orders1 o (some rf) now msgId p hctr]
        exact hold.2
      | some tn =>
        rw [applyEvent_shipments_some st orders1 o (some rf) now msgId p tn hctr]
        exact upsert_mem_of_mem _ _ _ _ _ hold.2
    · have hrf : r0 = rf :=
        hids r0 hr0 rf (List.mem_of_find?_eq_some hfi) hid
      subst hrf
      have hkey : r0.dedupeKey = p.dedupeKey := by
        have := List.find?_some hfi
        simpa using this
      obtain ⟨hET, hOID⟩ := hcons r0 hr0 hkey
      have hpe : p.eventType = "COURIER_STATUS_UPDATE" := by
        rw [← hET]
        exact hct
      obtain ⟨tn, htn⟩ := Option.isSome_iff_exists.mp (htrack hpe)
      have hctr : courierTrack p = some tn := by
        unfold courierTrack
        rw [if_pos hpe, htn]
      have horid : p.orderId =
          (InboxRow.orderId { r0 with status := "PROCESSED", processedAt := some now }) :=
        hOID.symm
      constructor
      · refine mem_updateOrderRows_of_mem _ _ _ _ ?_
        rw [← horid]
        exact hself
      · rw [applyEvent_shipments_some st orders1 o (some r0) now msgId p tn hctr]
        obtain ⟨s, hs, hss⟩ := upsert_mem_self p.orderId tn
          (p.fields.status.getD "UNKNOWN") st.shipments
        exact ⟨s, hs, by rw [hss, ← horid]⟩

/-- C2 (amended): the invariant — every `PROCESSED` `COURIER_STATUS_UPDATE`
inbox row references an Order that has at least one Shipment — is preserved by
every consumer transaction PROVIDED courier messages carry a tracking number
(and assuming primary-key uniqueness of inbox ids and that the inbox row of
the message's dedupe key agrees with the message on event type and order id,
both guaranteed at insertion).  Without the proviso it fails: a courier event
whose payload lacks a tracking number is marked `PROCESSED` with no shipment
upserted. -/
theorem c2_invariant_needs_tracking (st : SystemState) (now : Int) (msgId : Nat)
    (p : IngestEventPayload)
    (hinv : courierProcessedInv st)
    (hids : ∀ r ∈ st.inbox, ∀ s ∈ st.inbox, r.id = s.id → r = s)
    (hcons : ∀ r ∈ st.inbox, r.dedupeKey = p.dedupeKey →
      r.eventType = p.eventType ∧ r.orderId = p.orderId)
    (htrack : p.eventType = "COURIER_STATUS_UPDATE" → p.fields.trackingNumber.isSome) :
    courierProcessedInv (processMessage st now msgId p).state := by
  by_cases hval : p.orderId = "" ∨ p.dedupeKey = ""
  · unfold processMessage
    rw [if_pos hval]
    exact fun r hr => hinv r hr
  · rcases hfo : st.orders.find? (fun x => x.orderId == p.orderId) with _ | o
    · by_cases het : p.eventType = "SHOPIFY_CREATED"
      · rw [processMessage_eq_drop st now msgId p hval
          (by rw [resolveOrder_missing_create st p hfo het])]
        exact fun r hr => hinv r hr
      · have hres := resolveOrder_missing_other st p hfo het
        have hmono : ∀ k, (∃ x ∈ st.orders, x.orderId = k) →
            ∃ x ∈ st.orders ++ [minimalOrderRow p], x.orderId = k := by
          rintro k ⟨x, hx, rfl⟩
          exact ⟨x, List.mem_append_left _ hx, rfl⟩
        by_cases hstale : p.eventTs < (minimalOrderRow p).lastEventTs
        · rw [processMessage_eq_stale st now msgId p _ _ hval hres hstale]
          exact courierInv_staleResult st _ _ now hinv hmono
        · rw [processMessage_eq_apply st now msgId p _ _ hval hres hstale]
          exact courierInv_applyEvent st _ _ now msgId p hinv hids hcons htrack hmono
            ⟨minimalOrderRow p, List.mem_append_right _ (List.mem_singleton_self _), rfl⟩
    · have hres := resolveOrder_found st p o hfo
      have hmono : ∀ k, (∃ x ∈ st.orders, x.orderId = k) →
          ∃ x ∈ st.orders, x.orderId = k := fun _ h => h
      have hoid : o.orderId = p.orderId := by
        have := List.find?_some hfo
        simpa using this
      have hself : ∃ x ∈ st.orders, x.orderId = p.orderId :=
        ⟨o, List.mem_of_find?_eq_some hfo, hoid⟩
      by_cases hstale : p.eventTs < o.lastEventTs
      · rw [processMessage_eq_stale st now msgId p o st.orders hval hres hstale]
        exact courierInv_staleResult st _ _ now hinv hmono
      · rw [processMessage_eq_apply st now msgId p o st.orders hval hres hstale]
        exact courierInv_applyEvent st _ o now msgId p hinv hids hcons htrack hmono hself

theorem c2_invariant_needs_tracking_witness :
    courierProcessedInv
      (processMessage
          { orders := [baseOrder]
            shipments := []
            inbox := [receivedRow "COURIER_STATUS_UPDATE"]
            ingestQueue := [(1, msgFor "COURIER_STATUS_UPDATE" 1000 trackedFields)]
            outboundQueue := []
            nextMsgId := 2 } 5000 1
          (msgFor "COURIER_STATUS_UPDATE" 1000 trackedFields)).state :=
  c2_invariant_needs_tracking
    { orders := [baseOrder]
      shipments := []
      inbox := [receivedRow "COURIER_STATUS_UPDATE"]
      ingestQueue := [(1, msgFor "COURIER_STATUS_UPDATE" 1000 trackedFields)]
      outboundQueue := []
      nextMsgId := 2 } 5000 1 (msgFor "COURIER_STATUS_UPDATE" 1000 trackedFields)
    (by decide) (by decide) (by decide) (by decide)

end LogisticsSync
